import Mathlib

/-!
Verification of the gonka-tracker backend aggregation service.

The Python sources under `backend/src/backend/` (`service.py`, `database.py`,
`models.py`, `app.py`) are embedded shallowly: the upstream HTTP client
(`client.py`, whose source is not part of the reviewed tree) is modelled as an
environment record `World` whose fields give, for each endpoint, either the
parsed payload or `none` when the call raises (all base URLs failed); the
SQLite cache (`database.py`) is modelled as a record of extensional maps; and
the service methods become pure functions from `World` and state to state and
results.  `asyncio.create_task` dispatches are modelled as the task completing
before the next scheduler tick, matching the cooperative single-event-loop
execution model of the program.
-/

namespace GonkaTracker

/-- Error kinds escaping the service read paths.  `upstreamUnavailable` is the
exception the client raises when every base URL fails (client.py is not in the
reviewed tree; the kind is modelled from the spec, §7); `invalidHeight` is the
`ValueError` raised in `InferenceService.get_canonical_height`
(service.py lines 70-74). -/
inductive SvcError where
  | upstreamUnavailable
  | invalidHeight
  deriving DecidableEq, Repr

/-- The relevant slice of the `epochPerformanceSummary` payload
(`rewarded_coins` is a non-negative decimal string parsed with `int()`). -/
structure Summary where
  rewarded_coins : ℕ
  claimed : Bool
  deriving DecidableEq, Repr

/-- The `models.CurrentEpochStats` (models.py lines 6-13): per-participant
counters, all non-negative decimal strings; modelled as naturals since the
code only ever parses them with `int()`. -/
structure CurrentEpochStats where
  inference_count : ℕ
  missed_requests : ℕ
  earned_coins : ℕ
  rewarded_coins : ℕ
  burned_coins : ℕ
  validated_inferences : ℕ
  invalidated_inferences : ℕ
  deriving DecidableEq, Repr

/-- Round-half-to-even on rationals, the semantics of Python's builtin
`round` applied to an exactly-representable value. -/
def roundHalfEven (q : ℚ) : ℤ :=
  let f := ⌊q⌋
  let r := q - (f : ℚ)
  if r < 1/2 then f
  else if 1/2 < r then f + 1
  else if f % 2 = 0 then f else f + 1

/-- Python `round(x, 4)`: round to four decimal places. -/
def round4 (q : ℚ) : ℚ := (roundHalfEven (q * 10000) : ℚ) / 10000

/-- An element of the `participant` list of `/gonka/inference/v1/participants`. -/
structure UpstreamParticipant where
  index : String
  address : String
  inference_url : Option String
  status : Option String
  current_epoch_stats : CurrentEpochStats
  deriving DecidableEq, Repr

/-- An element of `active_participants.participants` of an epoch-group
payload, restricted to the fields the service extracts (service.py
lines 107-116). -/
structure EpochGroupParticipant where
  index : String
  weight : Int
  models : List String
  validator_key : Option String
  deriving DecidableEq, Repr

/-- The `models.ParticipantStats` (models.py lines 16-38), restricted to the
fields assigned in the fetch pipeline before the jail/health overlay merge. -/
structure ParticipantStatsModel where
  index : String
  address : String
  weight : Int
  validator_key : Option String
  inference_url : Option String
  status : Option String
  models : List String
  current_epoch_stats : CurrentEpochStats
  deriving DecidableEq, Repr

/-- The `ParticipantStats.missed_rate` (models.py lines 40-50):
`round(missed / (missed + inference_count), 4)`, and `0.0` when the
denominator is zero. -/
def ParticipantStatsModel.missed_rate (p : ParticipantStatsModel) : ℚ :=
  let missed := p.current_epoch_stats.missed_requests
  let inferences := p.current_epoch_stats.inference_count
  let total := missed + inferences
  if total = 0 then 0
  else round4 ((missed : ℚ) / (total : ℚ))

/-- The `ParticipantStats.invalidation_rate` (models.py lines 52-61). -/
def ParticipantStatsModel.invalidation_rate (p : ParticipantStatsModel) : ℚ :=
  let invalidated := p.current_epoch_stats.invalidated_inferences
  let inferences := p.current_epoch_stats.inference_count
  if inferences = 0 then 0
  else round4 ((invalidated : ℚ) / (inferences : ℚ))

/-- The `models.InferenceResponse` (models.py lines 64-75), restricted to the
fields the verified claims mention. -/
structure InferenceResponseModel where
  epoch_id : Int
  height : Int
  participants : List ParticipantStatsModel
  is_current : Bool
  total_assigned_rewards_gnk : Option ℕ := none
  deriving DecidableEq, Repr

/-- The upstream chain as observed through the client during one service
call.  A field of type `Option _` is `none` when the corresponding endpoint
raises (for example because every base URL failed). -/
structure World where
  /-- The `latest_epoch.index` of `/gonka/inference/v1/latest_epoch`. -/
  latestEpochIndex : Int
  /-- The `epoch_stages.next_poc_start` of the same payload. -/
  nextPocStart : Int
  /-- The `get_latest_height()`. -/
  latestHeight : Int
  /-- The `active_participants.epoch_group_id` of `current_epoch_group`. -/
  currentEpochGroupId : Int
  /-- The `active_participants.effective_block_height` of `epochs/{id}/epoch_group`;
  `none` when the epoch is not queryable (the call raises). -/
  epochEffective : Int → Option Int
  /-- The `active_participants.participants` of `epochs/{id}/epoch_group`. -/
  epochGroupParts : Int → List EpochGroupParticipant
  /-- The `get_epoch_performance_summary(epoch, participant)`; `none` = raises. -/
  perfSummary : Int → String → Option Summary
  /-- The `get_all_participants(height)`; `none` = raises. -/
  allParticipants : Int → Option (List UpstreamParticipant)
  /-- Whether the height and current-epoch-group fetches at the top of
  `get_current_epoch_stats` succeed. -/
  currentFetchOk : Bool

/-- The `InferenceService.get_canonical_height` (service.py lines 49-81).
Note the Python truthiness test `requested_height if requested_height else
current_height`: a requested height of `0` falls back to the chain height. -/
def get_canonical_height (w : World) (epoch_id : Int) (requested_height : Option Int) :
    Except SvcError Int :=
  if epoch_id = w.latestEpochIndex then
    match requested_height with
    | some h => if h ≠ 0 then Except.ok h else Except.ok w.latestHeight
    | none => Except.ok w.latestHeight
  else
    match w.epochEffective epoch_id with
    | none => Except.error SvcError.upstreamUnavailable
    | some effective_height =>
      let canonical_height :=
        match w.epochEffective (epoch_id + 1) with
        | some next_effective => next_effective - 10
        | none => w.nextPocStart - 10
      match requested_height with
      | none => Except.ok canonical_height
      | some h =>
        if h < effective_height then Except.error SvcError.invalidHeight
        else if canonical_height ≤ h then Except.ok canonical_height
        else Except.ok h

/-- The canonical height the historical branch computes when no height is
requested: next epoch's effective height minus 10, or `next_poc_start - 10`
when the next epoch is not yet queryable (service.py lines 60-65). -/
def historicalCanonical (w : World) (epoch_id : Int) : Int :=
  match w.epochEffective (epoch_id + 1) with
  | some next_effective => next_effective - 10
  | none => w.nextPocStart - 10

/-- The fetch/fuse pipeline shared by the current-epoch and historical fetches
(service.py lines 100-146 and 240-289): intersect the `participant` list with
the active indices of the epoch group, keeping the order of the
`all_participants` payload, and extract `{weight, models, validator_key}` from
the epoch payload (defaulting to `0`, `[]`, `None` when the index is absent
from the epoch dictionary).  The Python dictionary keyed by index keeps the
last entry on duplicate indices while `find?` keeps the first; active indices
are unique upstream. -/
def buildParticipants (epochParts : List EpochGroupParticipant)
    (allParts : List UpstreamParticipant) : List ParticipantStatsModel :=
  let activeIndices := epochParts.map (·.index)
  let active := allParts.filter (fun p => activeIndices.contains p.index)
  active.map (fun p =>
    match epochParts.find? (fun q => q.index == p.index) with
    | some q =>
      { index := p.index, address := p.address, weight := q.weight,
        validator_key := q.validator_key, inference_url := p.inference_url,
        status := p.status, models := q.models,
        current_epoch_stats := p.current_epoch_stats }
    | none =>
      { index := p.index, address := p.address, weight := 0,
        validator_key := none, inference_url := p.inference_url,
        status := p.status, models := [],
        current_epoch_stats := p.current_epoch_stats })

/-- The SQLite cache (`database.py`), restricted to the tables the verified
claims touch, as extensional maps.  `calcRuns` is a ghost counter recording,
per epoch, how many runs of `_calculate_and_cache_total_rewards` reached the
summation loop (i.e. the `get_epoch_participants` fetch succeeded). -/
structure DB where
  /-- The `epoch_status.is_finished` (database.py lines 299-318). -/
  finished : Int → Bool
  /-- The `epoch_total_rewards.total_rewards_gnk` (database.py lines 674-707). -/
  totalRewards : Int → Option ℕ
  /-- The `inference_stats` rows at `(epoch_id, height)`, reconstructed as the
  participant list they encode; the empty list means no rows exist for the
  key (writes never insert an empty row set and the reader maps zero rows to
  `None` — see `save_stats_batch` and `get_stats` below). -/
  statsCache : Int → Int → List ParticipantStatsModel
  /-- The `participant_rewards` rows (database.py lines 467-509). -/
  rewards : Int → String → Option Summary
  /-- Ghost counter of completed total-rewards calculations per epoch. -/
  calcRuns : Int → ℕ

/-- The mutable service state: the cache database plus the in-memory
current-epoch cache (`self.current_epoch_id`, `self.current_epoch_data`,
service.py lines 45-46). -/
structure SvcState where
  db : DB
  currentEpochId : Option Int
  currentEpochData : Option InferenceResponseModel

/-- The `CacheDB.save_stats_batch` (database.py lines 228-249): one
INSERT OR REPLACE per row, so an empty batch inserts nothing and leaves the
store unchanged.  Both call sites write the full fused batch for the
`(epoch_id, height)` key, so the per-row upsert is modelled as wholesale
replacement for a non-empty batch. -/
def save_stats_batch (db : DB) (epoch_id height : Int)
    (batch : List ParticipantStatsModel) : DB :=
  { db with
    statsCache := fun e h =>
      if e = epoch_id ∧ h = height then
        (if batch.isEmpty then db.statsCache e h else batch)
      else db.statsCache e h }

/-- The `CacheDB.get_stats` (database.py lines 251-284): returns `None` when
no rows exist for the key, else the reconstructed row list. -/
def get_stats (db : DB) (epoch_id height : Int) : Option (List ParticipantStatsModel) :=
  let l := db.statsCache epoch_id height
  if l.isEmpty then none else some l

/-- The per-participant performance summaries successfully fetched during a
total-rewards calculation, as `(participant_id, summary)` pairs (the
inner try/except of service.py lines 790-815 skips failures). -/
def summaryFetches (w : World) (epoch_id : Int) : List (String × Summary) :=
  ((w.epochGroupParts epoch_id).map (·.index)).filterMap
    (fun pid => (w.perfSummary epoch_id pid).map (fun s => (pid, s)))

/-- The summed `rewarded_coins` (integer ugnk) over the successful fetches. -/
def summaryTotalUgnk (w : World) (epoch_id : Int) : ℕ :=
  ((summaryFetches w epoch_id).map (fun x => x.2.rewarded_coins)).sum

/-- The `InferenceService._calculate_and_cache_total_rewards` (service.py lines
778-831).  The outer try/except swallows a failing `get_epoch_participants`
(nothing is written); when the per-participant sum is zero but at least one
summary was fetched, the function returns before any write; otherwise it
upserts the fetched per-participant rewards and stores
`total_ugnk // 1_000_000_000` in `epoch_total_rewards`. -/
def calcTotalRewards (w : World) (db : DB) (epoch_id : Int) : DB :=
  match w.epochEffective epoch_id with
  | none => db
  | some _ =>
    let fetched := summaryFetches w epoch_id
    let total_ugnk := summaryTotalUgnk w epoch_id
    if total_ugnk = 0 ∧ 0 < fetched.length then
      { db with calcRuns := fun e => if e = epoch_id then db.calcRuns e + 1 else db.calcRuns e }
    else
      { db with
        rewards := fun e p =>
          if e = epoch_id then
            match fetched.find? (fun x => x.1 == p) with
            | some x => some x.2
            | none => db.rewards e p
          else db.rewards e p,
        totalRewards := fun e =>
          if e = epoch_id then some (total_ugnk / 1000000000) else db.totalRewards e,
        calcRuns := fun e => if e = epoch_id then db.calcRuns e + 1 else db.calcRuns e }

/-- The `InferenceService.get_historical_epoch_stats` (service.py lines 184-323).
The jail/health overlay merge and `_ensure_participant_caches` are not
modelled: they write only `jail_status`, `node_health`, `participant_rewards`,
`participant_warm_keys` and `participant_hardware_nodes`, never
`epoch_status` or `epoch_total_rewards`.  An `asyncio.create_task` dispatch of
the rewards calculation is modelled as the task completing before control
returns to the scheduler; the response's total field carries the value read
before the dispatch, exactly as in the source. -/
def get_historical_epoch_stats (w : World) (s : SvcState) (epoch_id : Int)
    (height : Option Int) (calculate_rewards_sync : Bool) :
    Except SvcError (SvcState × InferenceResponseModel) :=
  let is_finished := s.db.finished epoch_id
  match get_canonical_height w epoch_id height with
  | Except.error e => Except.error e
  | Except.ok target_height =>
    match get_stats s.db epoch_id target_height with
    | some cachedParts =>
      let t := s.db.totalRewards epoch_id
      let db0 :=
        if t = some 0 then
          { s.db with totalRewards := fun e => if e = epoch_id then none else s.db.totalRewards e }
        else s.db
      let db1 :=
        if t = none ∨ t = some 0 then calcTotalRewards w db0 epoch_id else db0
      let totalOut := if calculate_rewards_sync then db1.totalRewards epoch_id else t
      Except.ok ({ s with db := db1 },
        { epoch_id := epoch_id, height := target_height, participants := cachedParts,
          is_current := false, total_assigned_rewards_gnk := totalOut })
    | none =>
      match w.allParticipants target_height with
      | none => Except.error SvcError.upstreamUnavailable
      | some allParts =>
        match w.epochEffective epoch_id with
        | none => Except.error SvcError.upstreamUnavailable
        | some _ =>
          let parts := buildParticipants (w.epochGroupParts epoch_id) allParts
          let db1 := save_stats_batch s.db epoch_id target_height parts
          let db2 :=
            if height = none ∧ ¬ is_finished then
              { db1 with finished := fun e => if e = epoch_id then true else db1.finished e }
            else db1
          let t := db2.totalRewards epoch_id
          let db3 := if t = (none : Option ℕ) then calcTotalRewards w db2 epoch_id else db2
          Except.ok ({ s with db := db3 },
            { epoch_id := epoch_id, height := target_height, participants := parts,
              is_current := false, total_assigned_rewards_gnk := t })

/-- The `InferenceService._mark_epoch_finished_if_needed` (service.py lines
325-340): on a fresh current-epoch id strictly greater than the cached one,
for a not-yet-finished old epoch, run the historical fetch with
`calculate_rewards_sync=True`; any exception it raises is caught and logged. -/
def markEpochFinishedIfNeeded (w : World) (s : SvcState) (freshEpochId : Int) : SvcState :=
  match s.currentEpochId with
  | none => s
  | some old =>
    if old < freshEpochId then
      if s.db.finished old then s
      else
        match get_historical_epoch_stats w s old none true with
        | Except.ok (s1, _) => s1
        | Except.error _ => s
    else s

/-- The fresh-fetch path of `InferenceService.get_current_epoch_stats`
(service.py lines 83-182), as executed by the scheduler tick
(`reload=True`, app.py line 40); the 300-second in-memory TTL short-circuit is
therefore not modelled.  Errors carry the state alongside because the
`except` branch at lines 177-182 runs after any database writes already
performed (in particular those of `_mark_epoch_finished_if_needed`): on
failure the previously cached in-memory response is returned if present,
otherwise the exception propagates. -/
def get_current_epoch_stats (w : World) (s : SvcState) :
    SvcState × Except SvcError InferenceResponseModel :=
  if w.currentFetchOk then
    let height := w.latestHeight
    let epoch_id := w.currentEpochGroupId
    let s1 := markEpochFinishedIfNeeded w s epoch_id
    match w.allParticipants height with
    | none =>
      match s1.currentEpochData with
      | some cached => (s1, Except.ok cached)
      | none => (s1, Except.error SvcError.upstreamUnavailable)
    | some allParts =>
      let parts := buildParticipants (w.epochGroupParts epoch_id) allParts
      let resp : InferenceResponseModel :=
        { epoch_id := epoch_id, height := height, participants := parts, is_current := true }
      let db1 := save_stats_batch s1.db epoch_id height parts
      ({ db := db1, currentEpochId := some epoch_id, currentEpochData := some resp },
        Except.ok resp)
  else
    match s.currentEpochData with
    | some cached => (s, Except.ok cached)
    | none => (s, Except.error SvcError.upstreamUnavailable)

/-- A warm key (`authz` grant): `grantee_address` and `granted_at`. -/
structure WK where
  grantee_address : String
  granted_at : String
  deriving DecidableEq, Repr

/-- The `participant_warm_keys` table keyed by `(epoch_id, participant_id)`;
the stored row set for a key (row order is irrelevant to the claims and the
`ORDER BY granted_at DESC` of the reader is not modelled). -/
structure WarmKeysDB where
  rows : Int → String → List WK

/-- The `CacheDB.get_warm_keys` (database.py lines 575-601): returns `None`
whenever no rows exist for the key — the reader cannot tell a never-fetched
key from one whose stored set is empty. -/
def get_warm_keys (db : WarmKeysDB) (epoch_id : Int) (participant_id : String) :
    Option (List WK) :=
  let l := db.rows epoch_id participant_id
  if l.isEmpty then none else some l

/-- The `CacheDB.save_warm_keys_batch` (database.py lines 545-573): delete all
rows for the key, then insert the given set, in one transaction. -/
def save_warm_keys_batch (db : WarmKeysDB) (epoch_id : Int) (participant_id : String)
    (warm_keys : List WK) : WarmKeysDB :=
  ⟨fun e p => if e = epoch_id ∧ p = participant_id then warm_keys else db.rows e p⟩

/-- The warm-keys portion of `InferenceService.get_participant_details`
(service.py lines 601-622): on a `None` cache read, inline-fetch the authz
grants (`authz pid = none` models the fetch raising); a non-empty result is
persisted, while an empty result — `if warm_keys_raw:` is false for `[]` —
is returned without being persisted.  Returns the updated store, the warm-key
list used for the response, and whether an inline fetch was made. -/
def warmKeysStep (authz : String → Option (List WK)) (db : WarmKeysDB)
    (epoch_id : Int) (participant_id : String) : WarmKeysDB × List WK × Bool :=
  match get_warm_keys db epoch_id participant_id with
  | some l => (db, l, false)
  | none =>
    match authz participant_id with
    | some raw =>
      if raw.isEmpty then (db, [], true)
      else (save_warm_keys_batch db epoch_id participant_id raw, raw, true)
    | none => (db, [], true)

/-- The per-node `poc_weight` resolution of the ml-node assembly in
`get_participant_details` (service.py line 650):
`poc_weight = ml_nodes_map.get(local_id) or node.get("poc_weight")`.
Python's `or` takes the right operand whenever the left is falsy, i.e. when
the key is absent (`None`) or its value is `0`. -/
def resolvePocWeight (ml_nodes_map : String → Option Int) (local_id : String)
    (registry_weight : Option Int) : Option Int :=
  match ml_nodes_map local_id with
  | some v => if v ≠ 0 then some v else registry_weight
  | none => registry_weight

/-! Concrete fixtures used to instantiate the theorems below. -/

/-- A default world every fetch of which fails; fixtures override fields. -/
def baseWorld : World :=
  { latestEpochIndex := 0, nextPocStart := 0, latestHeight := 0,
    currentEpochGroupId := 0, epochEffective := fun _ => none,
    epochGroupParts := fun _ => [], perfSummary := fun _ _ => none,
    allParticipants := fun _ => none, currentFetchOk := false }

/-- All-zero participant counters. -/
def zeroStats : CurrentEpochStats := ⟨0, 0, 0, 0, 0, 0, 0⟩

/-- A world in which epoch 42 is historical (current is 43), with
`effective_block_height` 10000 for epoch 42 and 10100 for epoch 43. -/
def wC1 : World :=
  { baseWorld with
    latestEpochIndex := 43, nextPocStart := 10095, latestHeight := 10150,
    epochEffective := fun e => if e = 42 then some 10000 else if e = 43 then some 10100 else none }

/-- An empty database. -/
def emptyDB : DB :=
  { finished := fun _ => false, totalRewards := fun _ => none,
    statsCache := fun _ _ => [], rewards := fun _ _ => none, calcRuns := fun _ => 0 }

/-- A previously cached current-epoch response. -/
def respC5 : InferenceResponseModel :=
  { epoch_id := 41, height := 9990, participants := [], is_current := true }

/-- Service state holding the in-memory cached current-epoch response. -/
def sC5 : SvcState := { db := emptyDB, currentEpochId := some 41, currentEpochData := some respC5 }

/-- Service state with no in-memory cache. -/
def sC5none : SvcState := { db := emptyDB, currentEpochId := none, currentEpochData := none }

/-- A world for the total-rewards calculation: epoch 40 has two active
participants whose summaries both fetch successfully with zero rewards. -/
def wC4 : World :=
  { baseWorld with
    epochEffective := fun e => if e = 40 then some 9000 else none,
    epochGroupParts := fun e =>
      if e = 40 then [⟨"gonka1aaa", 100, [], none⟩, ⟨"gonka1bbb", 200, [], none⟩] else [],
    perfSummary := fun e _ => if e = 40 then some ⟨0, false⟩ else none }

/-- A world for the total-rewards calculation: epoch 40 has two active
participants and every performance-summary fetch raises. -/
def wC10 : World :=
  { baseWorld with
    epochEffective := fun e => if e = 40 then some 9000 else none,
    epochGroupParts := fun e =>
      if e = 40 then [⟨"gonka1aaa", 100, [], none⟩, ⟨"gonka1bbb", 200, [], none⟩] else [],
    perfSummary := fun _ _ => none }

/-- A world at the epoch transition 41 → 42: the current epoch group reports
42 while the service still caches 41; epoch 41's canonical height is
`10100 - 10 = 10090`; all fetches succeed. -/
def wC3 : World :=
  { baseWorld with
    latestEpochIndex := 42, nextPocStart := 10200, latestHeight := 10095,
    currentEpochGroupId := 42,
    epochEffective := fun e => if e = 41 then some 10000 else if e = 42 then some 10100 else none,
    epochGroupParts := fun _ => [],
    allParticipants := fun _ => some [],
    currentFetchOk := true }

/-- The stats row a live tick of epoch 41 saved at height 10090. -/
def pC3row : ParticipantStatsModel :=
  { index := "gonka1live", address := "gonka1liveaddr", weight := 50, validator_key := none,
    inference_url := none, status := none, models := [],
    current_epoch_stats := { zeroStats with inference_count := 3 } }

/-- Service state at the transition in which a current-epoch tick had
previously saved stats for epoch 41 at exactly its canonical height 10090
(the live height passed through `next_effective - 10` while 41 was still
current, so `inference_stats` holds rows for `(41, 10090)`). -/
def sC3 : SvcState :=
  { db := { emptyDB with statsCache := fun e h => if e = 41 ∧ h = 10090 then [pC3row] else [] },
    currentEpochId := some 41, currentEpochData := none }

/-- Service state at the transition with a cold historical cache for epoch 41. -/
def sC3w : SvcState := { db := emptyDB, currentEpochId := some 41, currentEpochData := none }

/-- A warm-keys store with no rows at all. -/
def emptyWarmDB : WarmKeysDB := ⟨fun _ _ => []⟩

/-- An authz-grants endpoint that successfully returns an empty grant list
for every participant. -/
def authzEmptyC6 : String → Option (List WK) := fun _ => some []

/-- An `ml_nodes_map` carrying an explicit zero `poc_weight` for node n1
(`_extract_ml_nodes_map`, service.py lines 29-38, inserts any non-`None`
value, including 0). -/
def mlMapC8 : String → Option Int := fun s => if s = "n1" then some 0 else none

/-- Scenario A epoch payload: P1 with weight 100, P2 with weight 200. -/
def epochPartsC9 : List EpochGroupParticipant :=
  [⟨"P1", 100, [], none⟩, ⟨"P2", 200, [], none⟩]

/-- Scenario A `all_participants` payload: P1 with `inference_count="10"`,
`missed_requests="0"`; P2 with `inference_count="5"`, `missed_requests="5"`. -/
def allPartsC9 : List UpstreamParticipant :=
  [⟨"P1", "gonka1p1addr", none, none, { zeroStats with inference_count := 10, missed_requests := 0 }⟩,
   ⟨"P2", "gonka1p2addr", none, none, { zeroStats with inference_count := 5, missed_requests := 5 }⟩]

/-- A world for the cold Scenario A fetch: current epoch group 7 at height
1000, participants as above. -/
def wC9 : World :=
  { baseWorld with
    latestEpochIndex := 7, latestHeight := 1000, currentEpochGroupId := 7,
    epochGroupParts := fun e => if e = 7 then epochPartsC9 else [],
    allParticipants := fun h => if h = 1000 then some allPartsC9 else none,
    currentFetchOk := true }

/-- Cold service state for Scenario A. -/
def sC9 : SvcState := { db := emptyDB, currentEpochId := none, currentEpochData := none }

/-- The fused record the Scenario A pipeline produces for P1. -/
def pP1C9 : ParticipantStatsModel :=
  { index := "P1", address := "gonka1p1addr", weight := 100, validator_key := none,
    inference_url := none, status := none, models := [],
    current_epoch_stats := { zeroStats with inference_count := 10, missed_requests := 0 } }

/-- The fused record the Scenario A pipeline produces for P2. -/
def pP2C9 : ParticipantStatsModel :=
  { index := "P2", address := "gonka1p2addr", weight := 200, validator_key := none,
    inference_url := none, status := none, models := [],
    current_epoch_stats := { zeroStats with inference_count := 5, missed_requests := 5 } }

/-- A concrete participant for instantiating the rate bounds: 5 missed
requests and 5 inferences. -/
def pC7 : ParticipantStatsModel :=
  { index := "P2", address := "gonka1p2addr", weight := 200, validator_key := none,
    inference_url := none, status := none, models := [],
    current_epoch_stats := { zeroStats with inference_count := 5, missed_requests := 5 } }

/-! Theorems. -/

theorem roundHalfEven_nonneg (q : ℚ) (h : 0 ≤ q) : 0 ≤ roundHalfEven q := by
  have hf : (0 : ℤ) ≤ ⌊q⌋ := Int.floor_nonneg.mpr h
  simp only [roundHalfEven]
  split_ifs <;> omega

theorem roundHalfEven_le (q : ℚ) (n : ℤ) (h : q ≤ (n : ℚ)) : roundHalfEven q ≤ n := by
  have hfn : ⌊q⌋ ≤ n := by
    calc ⌊q⌋ ≤ ⌊(n : ℚ)⌋ := Int.floor_mono h
    _ = n := Int.floor_intCast n
  have hffq : (⌊q⌋ : ℚ) ≤ q := Int.floor_le q
  simp only [roundHalfEven]
  split_ifs with h1 h2 h3
  · exact hfn
  · have hhalf : (1 : ℚ)/2 ≤ q - (⌊q⌋ : ℚ) := le_of_lt h2
    have hq : (⌊q⌋ : ℚ) < q := by linarith
    have hlt : (⌊q⌋ : ℚ) < (n : ℚ) := lt_of_lt_of_le hq h
    have : ⌊q⌋ < n := by exact_mod_cast hlt
    omega
  · exact hfn
  · have hhalf : (1 : ℚ)/2 ≤ q - (⌊q⌋ : ℚ) := not_lt.mp h1
    have hq : (⌊q⌋ : ℚ) < q := by linarith
    have hlt : (⌊q⌋ : ℚ) < (n : ℚ) := lt_of_lt_of_le hq h
    have : ⌊q⌋ < n := by exact_mod_cast hlt
    omega

theorem round4_nonneg (q : ℚ) (h : 0 ≤ q) : 0 ≤ round4 q := by
  unfold round4
  have h1 : (0 : ℤ) ≤ roundHalfEven (q * 10000) := by
    apply roundHalfEven_nonneg
    positivity
  have h2 : (0 : ℚ) ≤ (roundHalfEven (q * 10000) : ℚ) := by exact_mod_cast h1
  positivity

theorem round4_le_one (q : ℚ) (h : q ≤ 1) : round4 q ≤ 1 := by
  unfold round4
  have h1 : roundHalfEven (q * 10000) ≤ (10000 : ℤ) := by
    apply roundHalfEven_le
    push_cast
    linarith
  have h2 : (roundHalfEven (q * 10000) : ℚ) ≤ 10000 := by exact_mod_cast h1
  rw [div_le_one (by norm_num : (0 : ℚ) < 10000)]
  exact h2

/-- Claim C7: for every `ParticipantStats`, `missed_rate` equals
`missed/(missed+inference_count)` rounded to 4 decimals, lies in `[0, 1]`,
and equals 0 when `missed+inference_count` is 0; and `invalidation_rate`
equals `invalidated/inference_count` rounded to 4 decimals and equals 0 when
`inference_count` is 0. -/
theorem c7_participant_rates (p : ParticipantStatsModel) :
    p.missed_rate =
      (if p.current_epoch_stats.missed_requests + p.current_epoch_stats.inference_count = 0
       then 0
       else round4 ((p.current_epoch_stats.missed_requests : ℚ) /
         ((p.current_epoch_stats.missed_requests + p.current_epoch_stats.inference_count : ℕ) : ℚ))) ∧
    0 ≤ p.missed_rate ∧ p.missed_rate ≤ 1 ∧
    (p.current_epoch_stats.missed_requests + p.current_epoch_stats.inference_count = 0 →
      p.missed_rate = 0) ∧
    p.invalidation_rate =
      (if p.current_epoch_stats.inference_count = 0 then 0
       else round4 ((p.current_epoch_stats.invalidated_inferences : ℚ) /
         (p.current_epoch_stats.inference_count : ℚ))) ∧
    (p.current_epoch_stats.inference_count = 0 → p.invalidation_rate = 0) := by
  refine ⟨rfl, ?_, ?_, ?_, rfl, ?_⟩
  · unfold ParticipantStatsModel.missed_rate
    dsimp only
    split_ifs with h0
    · norm_num
    · apply round4_nonneg
      positivity
  · unfold ParticipantStatsModel.missed_rate
    dsimp only
    split_ifs with h0
    · norm_num
    · apply round4_le_one
      rw [div_le_one]
      · exact_mod_cast Nat.le_add_right p.current_epoch_stats.missed_requests
          p.current_epoch_stats.inference_count
      · exact_mod_cast Nat.pos_of_ne_zero h0
  · intro h0
    unfold ParticipantStatsModel.missed_rate
    dsimp only
    rw [if_pos h0]
  · intro h0
    unfold ParticipantStatsModel.invalidation_rate
    dsimp only
    rw [if_pos h0]

/-- Witness for C7 at a concrete participant (5 missed, 5 inferences). -/
theorem c7_participant_rates_witness :
    0 ≤ pC7.missed_rate ∧ pC7.missed_rate ≤ 1 :=
  ⟨(c7_participant_rates pC7).2.1, (c7_participant_rates pC7).2.2.1⟩

/-- Claim C1: for a historical epoch (`epoch_id` strictly below the current
one) with no requested height, `get_canonical_height` returns the next
epoch's `effective_block_height - 10`, falling back to `next_poc_start - 10`
when epoch `epoch_id + 1` is not queryable (both cases are folded into
`historicalCanonical`); and any requested height at or above that canonical
height is clamped down to it.  The side condition `hwf` states that the
epoch's own effective height does not exceed the canonical height, which
holds on chain data since the next epoch becomes effective more than 10
blocks after the current one; without it the earlier `InvalidHeight` check of
the source (see C2) would fire first. -/
theorem c1_historical_canonical_height (w : World) (epoch_id eff : Int)
    (hhist : epoch_id < w.latestEpochIndex)
    (heff : w.epochEffective epoch_id = some eff)
    (hwf : eff ≤ historicalCanonical w epoch_id) :
    get_canonical_height w epoch_id none = Except.ok (historicalCanonical w epoch_id) ∧
    ∀ h : Int, historicalCanonical w epoch_id ≤ h →
      get_canonical_height w epoch_id (some h) = Except.ok (historicalCanonical w epoch_id) := by
  have hne : ¬ (epoch_id = w.latestEpochIndex) := by omega
  constructor
  · simp only [get_canonical_height, heff]
    rw [if_neg hne]
    rfl
  · intro h hh
    have h1 : ¬ h < eff := by
      have := le_trans hwf hh
      omega
    simp only [get_canonical_height, heff]
    rw [if_neg hne, if_neg h1]
    simp only [historicalCanonical] at hh ⊢
    rw [if_pos hh]

/-- Witness for C1: Scenario B — epoch 42 with next epoch effective at
10100 gives canonical height 10090, and a request at 10100 clamps to it. -/
theorem c1_historical_canonical_height_witness :
    get_canonical_height wC1 42 none = Except.ok 10090 ∧
    get_canonical_height wC1 42 (some 10100) = Except.ok 10090 := by
  have e : historicalCanonical wC1 42 = 10090 := by decide
  have h := c1_historical_canonical_height wC1 42 10000 (by decide) (by decide)
    (by rw [e]; decide)
  rw [e] at h
  exact ⟨h.1, h.2 10100 (by norm_num)⟩

/-- Claim C2: for a historical epoch, a requested height strictly below the
epoch's `effective_block_height` fails with `InvalidHeight` and returns no
height. -/
theorem c2_invalid_height (w : World) (epoch_id eff h : Int)
    (hhist : epoch_id < w.latestEpochIndex)
    (heff : w.epochEffective epoch_id = some eff)
    (hlt : h < eff) :
    get_canonical_height w epoch_id (some h) = Except.error SvcError.invalidHeight := by
  have hne : ¬ (epoch_id = w.latestEpochIndex) := by omega
  simp only [get_canonical_height, heff]
  rw [if_neg hne, if_pos hlt]

/-- Witness for C2: Scenario C — epoch 42 with effective height 10000 and a
request at 9000 fails `InvalidHeight`. -/
theorem c2_invalid_height_witness :
    get_canonical_height wC1 42 (some 9000) = Except.error SvcError.invalidHeight :=
  c2_invalid_height wC1 42 10000 9000 (by decide) (by decide) (by decide)

/-- Claim C4: whenever at least one performance summary was fetched
successfully and the summed `rewarded_coins` over the active participants is
zero, `_calculate_and_cache_total_rewards` writes no `epoch_total_rewards`
row: the whole table is left unchanged. -/
theorem c4_zero_sum_not_cached (w : World) (db : DB) (epoch_id eff : Int)
    (hok : w.epochEffective epoch_id = some eff)
    (hfetched : 0 < (summaryFetches w epoch_id).length)
    (hzero : summaryTotalUgnk w epoch_id = 0) :
    (calcTotalRewards w db epoch_id).totalRewards = db.totalRewards := by
  simp only [calcTotalRewards, hok]
  rw [if_pos ⟨hzero, hfetched⟩]

/-- Witness for C4: two participants whose summaries both return zero
rewards; no total is persisted for the epoch. -/
theorem c4_zero_sum_not_cached_witness :
    0 < (summaryFetches wC4 40).length ∧ summaryTotalUgnk wC4 40 = 0 ∧
    (calcTotalRewards wC4 emptyDB 40).totalRewards 40 = none := by
  have h := c4_zero_sum_not_cached wC4 emptyDB 40 9000 (by decide) (by decide) (by decide)
  exact ⟨by decide, by decide, by rw [congrFun h 40]; rfl⟩

/-- Claim C10: when every performance-summary fetch fails (zero successes),
the zero-sum guard does not apply and `_calculate_and_cache_total_rewards`
persists `total_rewards_gnk = 0` for the epoch. -/
theorem c10_all_failed_caches_zero (w : World) (db : DB) (epoch_id eff : Int)
    (hok : w.epochEffective epoch_id = some eff)
    (hfail : ∀ pid, w.perfSummary epoch_id pid = none) :
    (calcTotalRewards w db epoch_id).totalRewards epoch_id = some 0 := by
  have hnil : summaryFetches w epoch_id = [] := by
    unfold summaryFetches
    rw [List.filterMap_eq_nil_iff]
    intro pid _
    rw [hfail pid]
    rfl
  have hz : summaryTotalUgnk w epoch_id = 0 := by
    unfold summaryTotalUgnk
    rw [hnil]
    rfl
  have hcond : ¬ (summaryTotalUgnk w epoch_id = 0 ∧ 0 < (summaryFetches w epoch_id).length) := by
    rw [hnil]
    simp
  simp only [calcTotalRewards, hok]
  rw [if_neg hcond]
  simp [hz]

/-- Witness for C10: both participants raise on the summary fetch; zero is
cached as the epoch total. -/
theorem c10_all_failed_caches_zero_witness :
    (calcTotalRewards wC10 emptyDB 40).totalRewards 40 = some 0 :=
  c10_all_failed_caches_zero wC10 emptyDB 40 9000 (by decide) (fun _ => rfl)

/-- Claim C5: when the fresh current-epoch fetch fails, a previously cached
in-memory current-epoch response is returned unchanged; with no prior cache
the `UpstreamUnavailable` error propagates to the caller. -/
theorem c5_fetch_failure_fallback (w : World) (s s0 : SvcState) (r : InferenceResponseModel)
    (hfail : w.currentFetchOk = false)
    (hcache : s.currentEpochData = some r)
    (hnocache : s0.currentEpochData = none) :
    get_current_epoch_stats w s = (s, Except.ok r) ∧
    get_current_epoch_stats w s0 = (s0, Except.error SvcError.upstreamUnavailable) := by
  constructor <;> simp [get_current_epoch_stats, hfail, hcache, hnocache]

/-- Witness for C5: Scenario E with every upstream down. -/
theorem c5_fetch_failure_fallback_witness :
    get_current_epoch_stats baseWorld sC5 = (sC5, Except.ok respC5) ∧
    get_current_epoch_stats baseWorld sC5none =
      (sC5none, Except.error SvcError.upstreamUnavailable) :=
  c5_fetch_failure_fallback baseWorld sC5 sC5none respC5 rfl rfl rfl

/-- Counterexample to claim C6: starting from a participant with no stored
rows and an authz endpoint that successfully returns an empty grant list, the
inline fetch returns empty but no sentinel is stored: the store is unchanged,
`get_warm_keys` still answers `None`, and a second read triggers another
inline fetch — contradicting "a sentinel is stored so that every subsequent
read returns an empty list without triggering another fetch". -/
theorem c6_warm_keys_counterexample :
    (warmKeysStep authzEmptyC6 emptyWarmDB 7 "p1").2.1 = [] ∧
    (warmKeysStep authzEmptyC6 emptyWarmDB 7 "p1").2.2 = true ∧
    get_warm_keys (warmKeysStep authzEmptyC6 emptyWarmDB 7 "p1").1 7 "p1" = none ∧
    (warmKeysStep authzEmptyC6
      (warmKeysStep authzEmptyC6 emptyWarmDB 7 "p1").1 7 "p1").2.2 = true :=
  ⟨rfl, rfl, rfl, rfl⟩

/-- Claim C6 (amended): for a never-fetched participant the details read
inline-fetches the authz grants; when the fetched list is empty, the response
carries an empty list but nothing is persisted, so the warm-keys cache does
not distinguish never-fetched from fetched-and-empty and every subsequent
read triggers another inline fetch. -/
theorem c6_warm_keys_amended (authz : String → Option (List WK)) (db : WarmKeysDB)
    (epoch_id : Int) (pid : String)
    (hnever : db.rows epoch_id pid = [])
    (hempty : authz pid = some []) :
    (warmKeysStep authz db epoch_id pid).2.2 = true ∧
    (warmKeysStep authz db epoch_id pid).2.1 = [] ∧
    (warmKeysStep authz db epoch_id pid).1 = db ∧
    (warmKeysStep authz ((warmKeysStep authz db epoch_id pid).1) epoch_id pid).2.2 = true := by
  have h1 : get_warm_keys db epoch_id pid = none := by
    simp [get_warm_keys, hnever]
  have hstep : warmKeysStep authz db epoch_id pid = (db, [], true) := by
    simp [warmKeysStep, h1, hempty]
  rw [hstep]
  exact ⟨rfl, rfl, rfl, by rw [hstep]⟩

/-- Witness for the amended C6 at concrete inputs. -/
theorem c6_warm_keys_amended_witness :
    (warmKeysStep authzEmptyC6 emptyWarmDB 9 "p2").2.2 = true ∧
    (warmKeysStep authzEmptyC6 emptyWarmDB 9 "p2").2.1 = [] ∧
    (warmKeysStep authzEmptyC6 emptyWarmDB 9 "p2").1 = emptyWarmDB ∧
    (warmKeysStep authzEmptyC6
      ((warmKeysStep authzEmptyC6 emptyWarmDB 9 "p2").1) 9 "p2").2.2 = true :=
  c6_warm_keys_amended authzEmptyC6 emptyWarmDB 9 "p2" rfl rfl

/-- Counterexample to claim C8: the epoch's `ml_nodes_map` may carry an
explicit zero weight for a node (`_extract_ml_nodes_map` stores any
non-`None` value); the Python `or` then discards it and the registry value is
returned, so the map value is not used even though the key is present. -/
theorem c8_poc_weight_counterexample :
    mlMapC8 "n1" = some 0 ∧
    resolvePocWeight mlMapC8 "n1" (some 7) = some 7 ∧
    resolvePocWeight mlMapC8 "n1" (some 7) ≠ mlMapC8 "n1" := by
  refine ⟨rfl, rfl, ?_⟩
  decide

/-- Claim C8 (amended): `poc_weight` is taken from `ml_nodes_map[local_id]`
whenever the key is present with a non-zero value; when the key is absent —
or present with value 0, which Python's `or` treats as falsy — the hardware
registry value is used. -/
theorem c8_poc_weight_amended (m : String → Option Int) (local_id : String)
    (reg : Option Int) :
    (∀ v : Int, m local_id = some v → v ≠ 0 → resolvePocWeight m local_id reg = some v) ∧
    (m local_id = none → resolvePocWeight m local_id reg = reg) ∧
    (m local_id = some 0 → resolvePocWeight m local_id reg = reg) := by
  refine ⟨?_, ?_, ?_⟩
  · intro v hv hnz
    simp [resolvePocWeight, hv, hnz]
  · intro h
    simp [resolvePocWeight, h]
  · intro h
    simp [resolvePocWeight, h]

/-- Witness for the amended C8: a zero map entry falls back to the registry
value and an absent key falls back to the registry value. -/
theorem c8_poc_weight_amended_witness :
    resolvePocWeight mlMapC8 "n1" (some 7) = some 7 ∧
    resolvePocWeight mlMapC8 "n2" (some 5) = some 5 :=
  ⟨(c8_poc_weight_amended mlMapC8 "n1" (some 7)).2.2 (by decide),
   (c8_poc_weight_amended mlMapC8 "n2" (some 5)).2.1 (by decide)⟩

theorem roundHalfEven_intCast (n : ℤ) : roundHalfEven (n : ℚ) = n := by
  simp [roundHalfEven, Int.floor_intCast]

theorem round4_eq_of_int (q : ℚ) (n : ℤ) (h : q * 10000 = (n : ℚ)) :
    round4 q = (n : ℚ) / 10000 := by
  unfold round4
  rw [h, roundHalfEven_intCast]

/-- Claim C9: Scenario A — a cold current-epoch fetch with upstream
participants P1 (weight 100, inference_count "10", missed_requests "0") and
P2 (weight 200, inference_count "5", missed_requests "5") yields a response
with the epoch id, `is_current = true`, participants in the same order as the
upstream `active_participants` list, and `P2.missed_rate = 0.5`. -/
theorem c9_scenario_a_cold_fetch :
    ∃ resp : InferenceResponseModel,
      (get_current_epoch_stats wC9 sC9).2 = Except.ok resp ∧
      resp.epoch_id = 7 ∧
      resp.is_current = true ∧
      resp.participants.map (·.index) = epochPartsC9.map (·.index) ∧
      resp.participants.map ParticipantStatsModel.missed_rate = [0, 1/2] := by
  refine ⟨⟨7, 1000, [pP1C9, pP2C9], true, none⟩, by rfl, rfl, rfl, by decide, ?_⟩
  have h1 : pP1C9.missed_rate = 0 := by
    show (if (0 + 10 : ℕ) = 0 then (0:ℚ)
          else round4 (((0:ℕ) : ℚ) / (((0:ℕ) + (10:ℕ) : ℕ) : ℚ))) = 0
    norm_num
    rw [round4_eq_of_int 0 0 (by norm_num)]
    norm_num
  have h2 : pP2C9.missed_rate = 1/2 := by
    show (if (5 + 5 : ℕ) = 0 then (0:ℚ)
          else round4 (((5:ℕ) : ℚ) / (((5:ℕ) + (5:ℕ) : ℕ) : ℚ))) = 1/2
    norm_num
    rw [round4_eq_of_int ((1:ℚ)/2) 5000 (by norm_num)]
    norm_num
  simp [h1, h2]

theorem calcTotalRewards_finished (w : World) (db : DB) (e : Int) :
    (calcTotalRewards w db e).finished = db.finished := by
  unfold calcTotalRewards
  cases h : w.epochEffective e <;> simp only [h]
  split <;> rfl

theorem calcTotalRewards_calcRuns_bump (w : World) (db : DB) (e v : Int)
    (h : w.epochEffective e = some v) :
    (calcTotalRewards w db e).calcRuns e = db.calcRuns e + 1 := by
  unfold calcTotalRewards
  simp only [h]
  split <;> simp

theorem markEpochFinishedIfNeeded_noop (w : World) (s : SvcState) (x : Int)
    (h : ∀ c, s.currentEpochId = some c → (¬ c < x ∨ s.db.finished c = true)) :
    markEpochFinishedIfNeeded w s x = s := by
  unfold markEpochFinishedIfNeeded
  cases hc : s.currentEpochId with
  | none => rfl
  | some c =>
    rcases h c hc with h1 | h1
    · simp [h1]
    · by_cases hlt : c < x
      · simp [hlt, h1]
      · simp [hlt]

theorem tick_preserves_at (w2 : World) (T : SvcState) (e : Int)
    (hmark : markEpochFinishedIfNeeded w2 T w2.currentEpochGroupId = T) :
    ((get_current_epoch_stats w2 T).1).db.finished e = T.db.finished e ∧
    ((get_current_epoch_stats w2 T).1).db.calcRuns e = T.db.calcRuns e := by
  unfold get_current_epoch_stats
  by_cases hok : w2.currentFetchOk = true
  · rw [if_pos hok]
    simp only [hmark]
    cases hap : w2.allParticipants w2.latestHeight with
    | none => cases hcd : T.currentEpochData <;> simp [hap, hcd]
    | some aps => simp [hap, save_stats_batch]
  · rw [if_neg hok]
    cases hcd : T.currentEpochData <;> simp [hcd]

theorem hist_transition_effects (w : World) (s : SvcState) (old ch eff : Int)
    (aps : List UpstreamParticipant)
    (hnotfin : s.db.finished old = false)
    (hch : get_canonical_height w old none = Except.ok ch)
    (hcold : s.db.statsCache old ch = [])
    (heff : w.epochEffective old = some eff)
    (hall : w.allParticipants ch = some aps) :
    ∃ db3 : DB, ∃ r : InferenceResponseModel,
      get_historical_epoch_stats w s old none true = Except.ok ({ s with db := db3 }, r) ∧
      db3.finished old = true ∧
      db3.calcRuns old = s.db.calcRuns old +
        (if s.db.totalRewards old = none then 1 else 0) := by
  have hgs : get_stats s.db old ch = none := by
    simp [get_stats, hcold]
  by_cases ht : s.db.totalRewards old = none
  · unfold get_historical_epoch_stats
    simp only [hch, hgs, hall, heff]
    simp [hnotfin, ht, save_stats_batch]
    refine ⟨?_, ?_⟩
    · rw [calcTotalRewards_finished]
      simp
    · rw [calcTotalRewards_calcRuns_bump w _ old eff heff]
  · unfold get_historical_epoch_stats
    simp only [hch, hgs, hall, heff]
    simp [hnotfin, ht, save_stats_batch]

/-- Counterexample to claim C3: at the 41→42 transition with the transition
conditions satisfied (fresh epoch id 42 strictly above the cached 41, epoch
41 not yet marked finished), stats happen to be cached at epoch 41's
canonical height 10090, so the invoked historical fetch takes its
cached-stats branch — which never calls `mark_epoch_finished`.  After the
transition tick epoch 41 is still not marked finished, contradicting "after
the transition tick the old epoch is marked finished" (and since the
in-memory epoch id has advanced to 42, no later tick re-detects the
transition). -/
theorem c3_transition_counterexample :
    sC3.currentEpochId = some 41 ∧
    wC3.currentEpochGroupId = 42 ∧
    sC3.db.finished 41 = false ∧
    ((get_current_epoch_stats wC3 sC3).1).db.finished 41 = false ∧
    ((get_current_epoch_stats wC3 sC3).1).currentEpochId = some 42 := by
  refine ⟨rfl, rfl, rfl, ?_, ?_⟩ <;> decide

/-- Claim C3 (amended): when the current-epoch fetch observes a fresh epoch
id strictly greater than the cached one, the old epoch is not yet marked
finished, no stats are cached at the old epoch's canonical height `ch`, and
upstream is reachable, the transition tick marks the old epoch finished; the
total-rewards calculation runs exactly once when no epoch total is cached yet
and not at all when one already is; and a later tick observing the same
current epoch id leaves both the finished mark and the calculation count for
the old epoch unchanged.  (In the source the rewards calculation of this
cold path is dispatched with `asyncio.create_task` rather than synchronously;
it is modelled as completing before the next tick.) -/
theorem c3_transition_marks_finished_once (w w2 : World) (s : SvcState) (old ch eff : Int)
    (aps : List UpstreamParticipant)
    (hold : s.currentEpochId = some old)
    (hfresh : old < w.currentEpochGroupId)
    (hnotfin : s.db.finished old = false)
    (hch : get_canonical_height w old none = Except.ok ch)
    (hcold : s.db.statsCache old ch = [])
    (heff : w.epochEffective old = some eff)
    (hall : w.allParticipants ch = some aps)
    (hfetchok : w.currentFetchOk = true)
    (hw2 : w2.currentEpochGroupId = w.currentEpochGroupId) :
    ((get_current_epoch_stats w s).1).db.finished old = true ∧
    ((get_current_epoch_stats w s).1).db.calcRuns old =
      s.db.calcRuns old + (if s.db.totalRewards old = none then 1 else 0) ∧
    ((get_current_epoch_stats w2 (get_current_epoch_stats w s).1).1).db.finished old = true ∧
    ((get_current_epoch_stats w2 (get_current_epoch_stats w s).1).1).db.calcRuns old =
      ((get_current_epoch_stats w s).1).db.calcRuns old := by
  obtain ⟨db3, r, hhist, hfin3, hruns3⟩ :=
    hist_transition_effects w s old ch eff aps hnotfin hch hcold heff hall
  have hmark1 : markEpochFinishedIfNeeded w s w.currentEpochGroupId = { s with db := db3 } := by
    unfold markEpochFinishedIfNeeded
    simp only [hold, hfresh, if_true, hnotfin, Bool.false_eq_true, if_false, hhist]
  have hT : ((get_current_epoch_stats w s).1).db.finished old = true ∧
      ((get_current_epoch_stats w s).1).db.calcRuns old =
        s.db.calcRuns old + (if s.db.totalRewards old = none then 1 else 0) ∧
      (((get_current_epoch_stats w s).1).currentEpochId = some w.currentEpochGroupId ∨
        (get_current_epoch_stats w s).1 = { s with db := db3 }) := by
    unfold get_current_epoch_stats
    rw [if_pos hfetchok]
    simp only [hmark1]
    cases hap : w.allParticipants w.latestHeight with
    | none =>
      cases hcd : s.currentEpochData <;>
        simp [hap, hcd, hfin3, hruns3]
    | some aps2 =>
      simp [hap, hfin3, hruns3, save_stats_batch]
  have hnoop : markEpochFinishedIfNeeded w2 ((get_current_epoch_stats w s).1)
      w2.currentEpochGroupId = (get_current_epoch_stats w s).1 := by
    apply markEpochFinishedIfNeeded_noop
    intro c hc
    rcases hT.2.2 with hcur | hstate
    · left
      rw [hcur] at hc
      injection hc with h
      rw [h.symm, hw2]
      omega
    · right
      rw [hstate] at hc
      have hsc : s.currentEpochId = some c := hc
      rw [hold] at hsc
      injection hsc with h
      rw [hstate, h.symm]
      exact hfin3
  have hpres := tick_preserves_at w2 ((get_current_epoch_stats w s).1) old hnoop
  refine ⟨hT.1, hT.2.1, ?_, hpres.2⟩
  rw [hpres.1]
  exact hT.1

/-- Witness for the amended C3: the 41→42 transition from a cold historical
cache (no cached total) marks epoch 41 finished, runs the rewards
calculation once, and a second tick observing epoch 42 changes neither. -/
theorem c3_transition_marks_finished_once_witness :
    ((get_current_epoch_stats wC3 sC3w).1).db.finished 41 = true ∧
    ((get_current_epoch_stats wC3 sC3w).1).db.calcRuns 41 =
      sC3w.db.calcRuns 41 + (if sC3w.db.totalRewards 41 = none then 1 else 0) ∧
    ((get_current_epoch_stats wC3 (get_current_epoch_stats wC3 sC3w).1).1).db.finished 41 = true ∧
    ((get_current_epoch_stats wC3 (get_current_epoch_stats wC3 sC3w).1).1).db.calcRuns 41 =
      ((get_current_epoch_stats wC3 sC3w).1).db.calcRuns 41 :=
  c3_transition_marks_finished_once wC3 wC3 sC3w 41 10090 10000 []
    rfl (by decide) rfl rfl rfl rfl rfl rfl rfl

end GonkaTracker
